import Mathlib

/-!
Shallow embedding of src/my_package/pubmed.py.

The pipeline fetches PubMed records and reshapes them.  The network stages
(fetch_pubmed_data, fetch_article_details) only call the Entrez client and are
not modelled; the claims are about the pure reshaping code:

  * parse_date_from_pubdate  — date extraction with defaults;
  * create_publication_dataframe — flattening records into a dataframe and
    writing a CSV file;
  * create_publication_markdown — rendering one markdown document per row.

Python dictionaries with optional keys are embedded as structures with
Option fields; dictionary accesses that can raise KeyError are embedded in
the Except monad.  Python string helpers (join, split, strip, re.sub) are
re-implemented on List Char by structural recursion so that every
definition evaluates in the kernel.  The regex [^a-zA-Z0-9\s] and str.strip
are modelled over ASCII: the class [a-zA-Z0-9] is ASCII in Python and all
claim inputs are ASCII.
-/

/-- Python ', '.join(...) / '; '.join(...): join a list of strings with a
separator, empty for the empty list. -/
def joinWith (sep : String) : List String → String
  | [] => ""
  | [x] => x
  | x :: xs => x ++ sep ++ joinWith sep xs

/-- ASCII whitespace characters matched by the regex class \s and stripped by
str.strip (space, tab, newline, carriage return, vertical tab, form feed). -/
def isPyWS (c : Char) : Bool :=
  c == ' ' || c == '\t' || c == '\n' || c == '\r' ||
  c == Char.ofNat 11 || c == Char.ofNat 12

/-- Characters kept by re.sub(r'[^a-zA-Z0-9\s]', '', ·): ASCII alphanumerics
and whitespace. -/
def keepChar (c : Char) : Bool :=
  c.isAlphanum || isPyWS c

/-- re.sub(r'[^a-zA-Z0-9\s]', '', s): delete every character that is neither
alphanumeric nor whitespace. -/
def stripSpecial (s : String) : String :=
  String.mk (s.data.filter keepChar)

/-- Python str.strip(): drop leading and trailing whitespace. -/
def pyStrip (s : String) : String :=
  String.mk (((s.data.dropWhile isPyWS).reverse.dropWhile isPyWS).reverse)

/-- Helper for pySplitCommaSpace: scan the character list, cutting at each
non-overlapping occurrence of the two-character separator ", ". -/
def splitCommaSpaceAux : List Char → List Char → List (List Char)
  | [], acc => [acc.reverse]
  | [c], acc => [(c :: acc).reverse]
  | c1 :: c2 :: rest, acc =>
    if c1 = ',' ∧ c2 = ' ' then
      acc.reverse :: splitCommaSpaceAux rest []
    else
      splitCommaSpaceAux (c2 :: rest) (c1 :: acc)

/-- Python s.split(', '): split on the literal separator; the empty string
yields the singleton list [""]. -/
def pySplitCommaSpace (s : String) : List String :=
  (splitCommaSpaceAux s.data []).map String.mk

/-- Python set(...) materialised as a list: one entry per distinct element.
CPython iterates a set in an implementation-defined order; the embedding
fixes first-occurrence order as the canonical one, and the properties proved
about it (membership and uniqueness) are order-independent. -/
def pyDedup : List String → List String
  | [] => []
  | x :: xs => x :: List.filter (fun y => !(y == x)) (pyDedup xs)

/-- The PubDate substructure consumed by parse_date_from_pubdate: a mapping
with optional Year/Month/Day keys. -/
structure PubDate where
  Year : Option String
  Month : Option String
  Day : Option String
deriving DecidableEq

/-- parse_date_from_pubdate (pubmed.py lines 12-29): if 'Year' is present,
format year-month-day with Month and Day defaulting to "01"; otherwise
return the string "No date found". -/
def parse_date_from_pubdate (pubdate : PubDate) : String :=
  match pubdate.Year with
  | some year => year ++ "-" ++ pubdate.Month.getD "01" ++ "-" ++ pubdate.Day.getD "01"
  | none => "No date found"

/-- One entry of an AuthorList: optional LastName/ForeName keys and the
AffiliationInfo list (each entry reduced to its Affiliation string; an
absent AffiliationInfo key and an empty list are both the empty list, which
the source treats identically via its falsiness check). -/
structure Author where
  LastName : Option String
  ForeName : Option String
  AffiliationInfo : List String
deriving DecidableEq

/-- The Journal substructure, with an optional Title key. -/
structure JournalRec where
  Title : Option String
deriving DecidableEq

/-- The Abstract substructure, with an optional AbstractText key holding a
list of abstract segments. -/
structure AbstractBlock where
  AbstractText : Option (List String)
deriving DecidableEq

/-- The Article substructure: ArticleTitle, Abstract, AuthorList optional as
dictionary keys; the Journal substructure with its optional Title. -/
structure Article where
  ArticleTitle : Option String
  Abstract : Option AbstractBlock
  AuthorList : Option (List Author)
  Journal : JournalRec
deriving DecidableEq

/-- The MedlineCitation substructure: PMID and MeshHeadingList are optional
keys; each MeshHeading is reduced to its DescriptorName string. -/
structure MedlineCitation where
  PMID : Option String
  Article : Article
  MeshHeadingList : Option (List String)
deriving DecidableEq

/-- One RawRecord of the PubmedArticle list returned by the details
endpoint. -/
structure RawRecord where
  MedlineCitation : MedlineCitation
deriving DecidableEq

/-- One flattened row of the publication dataframe (pubmed.py lines 68-77),
fields in the source's column order. -/
structure PublicationRow where
  PMID : String
  Title : String
  Abstract : String
  Authors : String
  Journal : String
  Keywords : String
  URL : String
  Affiliations : String
deriving DecidableEq

/-- The Abstract field computation (pubmed.py line 55): the space-join of
AbstractText when both the Abstract key and its AbstractText key are
present, the empty string otherwise. -/
def joinAbstract (article : Article) : String :=
  match article.Abstract with
  | some ab =>
    match ab.AbstractText with
    | some texts => joinWith " " texts
    | none => ""
  | none => ""

/-- One author's contribution to the Authors join (pubmed.py line 56):
author.get('LastName', '') + ' ' + author.get('ForeName', ''). -/
def authorName (author : Author) : String :=
  author.LastName.getD "" ++ " " ++ author.ForeName.getD ""

/-- The Authors field (pubmed.py line 56): comma-space join of the author
names in author-list order. -/
def joinAuthors (authors : List Author) : String :=
  joinWith ", " (authors.map authorName)

/-- The affiliation-collecting loop (pubmed.py lines 58-61): for each author
whose AffiliationInfo is present and non-empty, append the first entry's
Affiliation string, in author-list order. -/
def collectAffiliations : List Author → List String
  | [] => []
  | author :: rest =>
    match author.AffiliationInfo with
    | [] => collectAffiliations rest
    | aff :: _ => aff :: collectAffiliations rest

/-- The Affiliations field (pubmed.py line 62): '; '.join(set(affiliations)),
with set(...) embedded as pyDedup. -/
def joinAffiliations (authors : List Author) : String :=
  joinWith "; " (pyDedup (collectAffiliations authors))

/-- The Keywords field (pubmed.py line 65): comma-space join of the
DescriptorName strings when MeshHeadingList is present, else "". -/
def joinKeywords (mesh : Option (List String)) : String :=
  match mesh with
  | some keywords => joinWith ", " keywords
  | none => ""

/-- The URL field (pubmed.py line 66). -/
def pubmedUrl (pmid : String) : String :=
  "https://www.ncbi.nlm.nih.gov/pubmed/" ++ pmid

/-- The per-record body of the dataframe loop (pubmed.py lines 53-77):
each bare dictionary access on a required key raises KeyError when the key
is absent (embedded as Except.error); optional keys fall back to empty
strings.  Accesses happen in source order: PMID, ArticleTitle, AuthorList
(line 56), Journal Title (line 64). -/
def transformRecord (record : RawRecord) : Except String PublicationRow :=
  match record.MedlineCitation.PMID with
  | none => Except.error "KeyError: PMID"
  | some pmid =>
    match record.MedlineCitation.Article.ArticleTitle with
    | none => Except.error "KeyError: ArticleTitle"
    | some title =>
      match record.MedlineCitation.Article.AuthorList with
      | none => Except.error "KeyError: AuthorList"
      | some authors =>
        match record.MedlineCitation.Article.Journal.Title with
        | none => Except.error "KeyError: Title"
        | some journal =>
          Except.ok
            { PMID := pmid
              Title := title
              Abstract := joinAbstract record.MedlineCitation.Article
              Authors := joinAuthors authors
              Journal := journal
              Keywords := joinKeywords record.MedlineCitation.MeshHeadingList
              URL := pubmedUrl pmid
              Affiliations := joinAffiliations authors }

/-- A pandas DataFrame reduced to what the source uses: a column list and a
row list.  pd.DataFrame() has no columns and no rows; rows only ever carry
the eight publication fields, so they are kept structured. -/
structure DataFrame where
  columns : List String
  rows : List PublicationRow
deriving DecidableEq

/-- pd.DataFrame() (pubmed.py line 49): no columns, no rows. -/
def emptyDataFrame : DataFrame :=
  { columns := [], rows := [] }

/-- The column list of every new_row frame (pubmed.py lines 68-77), in
source order. -/
def pubColumns : List String :=
  ["PMID", "Title", "Abstract", "Authors", "Journal", "Keywords", "URL", "Affiliations"]

/-- The single-row frame built from one record (pubmed.py lines 68-77). -/
def newRowFrame (row : PublicationRow) : DataFrame :=
  { columns := pubColumns, rows := [row] }

/-- pd.concat([df, new], ignore_index=True) for the shapes this program
builds: the column union keeps df's columns first, then new's columns not
already present; rows are appended. -/
def pdConcat (df new : DataFrame) : DataFrame :=
  { columns := df.columns ++ new.columns.filter (fun c => !(df.columns.contains c))
    rows := df.rows ++ new.rows }

/-- The dataframe accumulation loop (pubmed.py lines 50-79): left-to-right
over the PubmedArticle list; a KeyError in any iteration aborts the whole
call. -/
def buildLoop : DataFrame → List RawRecord → Except String DataFrame
  | df, [] => Except.ok df
  | df, record :: rest =>
    match transformRecord record with
    | Except.error e => Except.error e
    | Except.ok row => buildLoop (pdConcat df (newRowFrame row)) rest

/-- One CSV cell under pandas' default minimal quoting: a cell containing a
separator, quote or line break is wrapped in double quotes with inner
quotes doubled. -/
def escapeQuotes : List Char → List Char
  | [] => []
  | c :: rest =>
    if c = Char.ofNat 34 then Char.ofNat 34 :: Char.ofNat 34 :: escapeQuotes rest
    else c :: escapeQuotes rest

/-- CSV rendering of one cell (pandas to_csv default quoting). -/
def csvCell (s : String) : String :=
  if s.data.any (fun c => c == ',' || c == Char.ofNat 34 || c == '\n' || c == '\r') then
    "\"" ++ String.mk (escapeQuotes s.data) ++ "\""
  else s

/-- The cells of one CSV data row, in column order. -/
def rowCells (row : PublicationRow) : List String :=
  [row.PMID, row.Title, row.Abstract, row.Authors, row.Journal, row.Keywords,
   row.URL, row.Affiliations]

/-- df.to_csv(..., index=False) (pubmed.py line 86): the comma-joined header
line, then one comma-joined line per row, each line newline-terminated.  A
frame with no columns yields the single empty line "\n". -/
def toCsv (df : DataFrame) : String :=
  joinWith "," df.columns ++ "\n" ++
    String.join (df.rows.map (fun row => joinWith "," ((rowCells row).map csvCell) ++ "\n"))

/-- create_publication_dataframe (pubmed.py lines 48-88): build the frame,
then write it to outputs/<timestamp>.csv and return it.  The source has no
exception handler, so a failing write propagates before the return
statement; writeOk models whether os.makedirs + df.to_csv succeed. -/
def create_publication_dataframe (records : List RawRecord) (writeOk : Bool) :
    Except String DataFrame :=
  match buildLoop emptyDataFrame records with
  | Except.error e => Except.error e
  | Except.ok df => if writeOk then Except.ok df else Except.error "OSError: to_csv failed"

deriving instance DecidableEq for Except

/-- Whether an Except computation succeeded. -/
def exceptOk {α : Type} (e : Except String α) : Bool :=
  match e with
  | Except.ok _ => true
  | Except.error _ => false

/-- The markdown filename for a row (pubmed.py line 105): the title with
special characters removed, plus the extension. -/
def mdFilename (title : String) : String :=
  stripSpecial title ++ ".md"

/-- One rendered author token (pubmed.py line 111):
'[[' + re.sub(r'[^a-zA-Z0-9\s]', '', author.strip()) + ']]'. -/
def authorToken (author : String) : String :=
  "[[" ++ stripSpecial (pyStrip author) ++ "]]"

/-- The markdown body of one row (pubmed.py lines 108-115). -/
def markdownBody (row : PublicationRow) : String :=
  "# " ++ row.Title ++ "\n\n" ++
  "**PMID:** " ++ row.PMID ++ "\n\n" ++
  "**Journal:** " ++ row.Journal ++ "\n\n" ++
  "**Authors:** " ++ joinWith "**, **" ((pySplitCommaSpace row.Authors).map authorToken) ++ "\n\n" ++
  "**Abstract:**\n" ++ row.Abstract ++ "\n\n" ++
  "**Keywords:** " ++ row.Keywords ++ "\n\n" ++
  "**URL:** " ++ row.URL ++ "\n\n" ++
  "**Affiliations:** " ++ row.Affiliations ++ "\n\n"

/-- open(filepath, 'w') on POSIX (pubmed.py line 118): creating or
overwriting a file in the existing outputs directory fails only when the
final path component is empty; any non-empty name (".md" included, a hidden
file) is writable. -/
def writeDocument (filename : String) : Except String Unit :=
  if filename = "" then Except.error "OSError: invalid filename" else Except.ok Unit.unit

/-- The rendering loop of create_publication_markdown (pubmed.py lines
102-119): derive each filename, write each document in row order, and stop
at the first failing write.  The result lists the (filename, body) pairs
written. -/
def renderLoop : List PublicationRow → Except String (List (String × String))
  | [] => Except.ok []
  | row :: rest =>
    match writeDocument (mdFilename row.Title) with
    | Except.error e => Except.error e
    | Except.ok _ =>
      match renderLoop rest with
      | Except.error e => Except.error e
      | Except.ok docs => Except.ok ((mdFilename row.Title, markdownBody row) :: docs)

/-- create_publication_markdown (pubmed.py lines 90-120), over the rows of
the publication dataframe. -/
def create_publication_markdown (rows : List PublicationRow) :
    Except String (List (String × String)) :=
  renderLoop rows

/-- The per-record transforms of the dataframe loop in input order: the rows
the loop appends, or its first KeyError. -/
def transformAll : List RawRecord → Except String (List PublicationRow)
  | [] => Except.ok []
  | record :: rest =>
    match transformRecord record with
    | Except.error e => Except.error e
    | Except.ok row =>
      match transformAll rest with
      | Except.error e => Except.error e
      | Except.ok rows => Except.ok (row :: rows)

/-! ## Helper lemmas -/

/-- Every element of pyDedup comes from the input and conversely. -/
theorem mem_pyDedup {a : String} : ∀ {l : List String}, a ∈ pyDedup l ↔ a ∈ l := by
  intro l
  induction l with
  | nil => simp [pyDedup]
  | cons x xs ih =>
    by_cases hax : a = x
    · subst hax
      simp [pyDedup]
    · simp [pyDedup, List.mem_filter, hax, ih]

/-- pyDedup produces a duplicate-free list. -/
theorem nodup_pyDedup : ∀ (l : List String), (pyDedup l).Nodup := by
  intro l
  induction l with
  | nil => simp [pyDedup]
  | cons x xs ih =>
    refine List.nodup_cons.mpr ⟨?_, ?_⟩
    · simp [List.mem_filter]
    · exact List.Nodup.filter _ ih

/-- If no author carries an affiliation entry, the collected list is empty. -/
theorem collectAffiliations_eq_nil {authors : List Author}
    (h : ∀ a ∈ authors, a.AffiliationInfo = []) : collectAffiliations authors = [] := by
  induction authors with
  | nil => rfl
  | cons a rest ih =>
    have ha : a.AffiliationInfo = [] := h a (List.mem_cons_self a rest)
    have hrest : ∀ b ∈ rest, b.AffiliationInfo = [] :=
      fun b hb => h b (List.mem_cons_of_mem a hb)
    simp [collectAffiliations, ha, ih hrest]

/-- transformRecord on a record whose four required keys are present reduces
to the flattened row. -/
theorem transformRecord_ok_eq (pmid title jtitle : String) (authors : List Author)
    (ab : Option AbstractBlock) (mesh : Option (List String)) :
    transformRecord ⟨⟨some pmid, ⟨some title, ab, some authors, ⟨some jtitle⟩⟩, mesh⟩⟩ =
      Except.ok
        ⟨pmid, title, joinAbstract ⟨some title, ab, some authors, ⟨some jtitle⟩⟩,
          joinAuthors authors, jtitle, joinKeywords mesh, pubmedUrl pmid,
          joinAffiliations authors⟩ := rfl

/-! ## Claims -/

/-- C1 counterexample: the sentinel the code returns for a date substructure
lacking the Year key is "No date found" (capital N), not the string
"no date found" stated by the claim. -/
theorem parse_date_sentinel_cex :
    parse_date_from_pubdate ⟨none, none, none⟩ = "No date found" ∧
    parse_date_from_pubdate ⟨none, none, none⟩ ≠ "no date found" := by
  decide

/-- C1 (amended): for every date substructure with a Year key, the extractor
returns year, month, day joined by hyphens with month and day defaulting to
"01"; for every substructure lacking Year it returns the fixed sentinel
"No date found". -/
theorem parse_date_spec (p : PubDate) :
    (∀ y, p.Year = some y →
      parse_date_from_pubdate p = y ++ "-" ++ p.Month.getD "01" ++ "-" ++ p.Day.getD "01") ∧
    (p.Year = none → parse_date_from_pubdate p = "No date found") := by
  constructor
  · intro y hy
    simp [parse_date_from_pubdate, hy]
  · intro hy
    simp [parse_date_from_pubdate, hy]

/-- C1 witness: Year="2023" with no Month/Day yields "2023-01-01", and a
substructure lacking Year yields "No date found". -/
theorem parse_date_spec_witness :
    parse_date_from_pubdate ⟨some "2023", none, none⟩ = "2023-01-01" ∧
    parse_date_from_pubdate ⟨none, none, none⟩ = "No date found" := by
  constructor
  · exact ((parse_date_spec ⟨some "2023", none, none⟩).1 "2023" rfl).trans (by decide)
  · exact (parse_date_spec ⟨none, none, none⟩).2 rfl

/-- C9: removing every character that is not alphanumeric or whitespace is
idempotent, and the title "Burn Patients: A Review!" maps to the filename
"Burn Patients A Review.md". -/
theorem stripSpecial_idempotent (s : String) :
    stripSpecial (stripSpecial s) = stripSpecial s ∧
    mdFilename "Burn Patients: A Review!" = "Burn Patients A Review.md" := by
  constructor
  · simp [stripSpecial, List.filter_filter]
  · decide

/-- C2 counterexample: for the empty record collection the builder returns a
frame with no columns at all, and the CSV it writes is the single empty line
"\n" — the eight-column header row of the claim is absent. -/
theorem empty_export_headerless_cex :
    create_publication_dataframe [] true = Except.ok emptyDataFrame ∧
    emptyDataFrame.columns = [] ∧
    toCsv emptyDataFrame = "\n" ∧
    toCsv emptyDataFrame ≠ joinWith "," pubColumns ++ "\n" := by
  decide

/-- C2 (amended): for the empty record collection the dataset builder
produces the empty frame — zero rows and zero columns, so the tabular file
is a single empty line without any header — and the document renderer
writes zero documents. -/
theorem empty_export_spec :
    create_publication_dataframe [] true = Except.ok emptyDataFrame ∧
    emptyDataFrame.rows = [] ∧
    emptyDataFrame.columns = [] ∧
    toCsv emptyDataFrame = "\n" ∧
    create_publication_markdown [] = Except.ok [] := by
  decide

/-- C3 counterexample: for the empty record collection the in-memory frame
is built, yet when the CSV write fails the call raises instead of returning
it — the caller receives no dataset. -/
theorem write_failure_blocks_return_cex :
    buildLoop emptyDataFrame [] = Except.ok emptyDataFrame ∧
    create_publication_dataframe [] false = Except.error "OSError: to_csv failed" := by
  decide

/-- C3 (amended): the dataset builder returns the accumulated dataset only
when the CSV write succeeds; a write failure propagates uncaught and the
caller receives no dataset. -/
theorem dataframe_return_requires_write (records : List RawRecord) :
    exceptOk (create_publication_dataframe records false) = false ∧
    (∀ df, buildLoop emptyDataFrame records = Except.ok df →
      create_publication_dataframe records true = Except.ok df) := by
  constructor
  · cases h : buildLoop emptyDataFrame records with
    | error e => simp [create_publication_dataframe, h, exceptOk]
    | ok df => simp [create_publication_dataframe, h, exceptOk]
  · intro df h
    simp [create_publication_dataframe, h]

/-- C3 witness: at the empty record collection, the failing write raises and
the successful write returns the built (empty) frame. -/
theorem dataframe_return_requires_write_witness :
    exceptOk (create_publication_dataframe [] false) = false ∧
    create_publication_dataframe [] true = Except.ok emptyDataFrame := by
  exact ⟨(dataframe_return_requires_write []).1,
    (dataframe_return_requires_write []).2 emptyDataFrame (by decide)⟩

/-- C4: a record whose required keys are present transforms without error,
and each absent optional substructure degrades to the empty string: Abstract
when the Abstract key is absent, Keywords when MeshHeadingList is absent,
Affiliations when no author carries an affiliation entry, Authors when the
author list is empty. -/
theorem transform_optional_defaults (pmid title jtitle : String) (authors : List Author)
    (ab : Option AbstractBlock) (mesh : Option (List String)) :
    exceptOk (transformRecord
      ⟨⟨some pmid, ⟨some title, ab, some authors, ⟨some jtitle⟩⟩, mesh⟩⟩) = true ∧
    ∀ row,
      transformRecord ⟨⟨some pmid, ⟨some title, ab, some authors, ⟨some jtitle⟩⟩, mesh⟩⟩ =
        Except.ok row →
      (ab = none → row.Abstract = "") ∧
      (mesh = none → row.Keywords = "") ∧
      ((∀ a ∈ authors, a.AffiliationInfo = []) → row.Affiliations = "") ∧
      (authors = [] → row.Authors = "") := by
  refine ⟨by rw [transformRecord_ok_eq]; rfl, ?_⟩
  intro row hrow
  rw [transformRecord_ok_eq] at hrow
  injection hrow with h
  subst h
  refine ⟨?_, ?_, ?_, ?_⟩
  · intro hab
    subst hab
    rfl
  · intro hmesh
    subst hmesh
    rfl
  · intro haff
    simp [joinAffiliations, collectAffiliations_eq_nil haff, pyDedup, joinWith]
  · intro hauthors
    subst hauthors
    rfl

/-- C4 witness: a concrete record lacking all optional substructures
transforms successfully into a row whose optional fields are all empty. -/
theorem transform_optional_defaults_witness :
    exceptOk (transformRecord ⟨⟨some "1", ⟨some "T", none, some [], ⟨some "J"⟩⟩, none⟩⟩) = true ∧
    ({ PMID := "1", Title := "T", Abstract := "", Authors := "", Journal := "J", Keywords := "",
       URL := "https://www.ncbi.nlm.nih.gov/pubmed/1", Affiliations := "" } :
      PublicationRow).Abstract = "" ∧
    ({ PMID := "1", Title := "T", Abstract := "", Authors := "", Journal := "J", Keywords := "",
       URL := "https://www.ncbi.nlm.nih.gov/pubmed/1", Affiliations := "" } :
      PublicationRow).Keywords = "" ∧
    ({ PMID := "1", Title := "T", Abstract := "", Authors := "", Journal := "J", Keywords := "",
       URL := "https://www.ncbi.nlm.nih.gov/pubmed/1", Affiliations := "" } :
      PublicationRow).Affiliations = "" ∧
    ({ PMID := "1", Title := "T", Abstract := "", Authors := "", Journal := "J", Keywords := "",
       URL := "https://www.ncbi.nlm.nih.gov/pubmed/1", Affiliations := "" } :
      PublicationRow).Authors = "" := by
  have h := transform_optional_defaults "1" "T" "J" [] none none
  have h2 := h.2
    ⟨"1", "T", "", "", "J", "", "https://www.ncbi.nlm.nih.gov/pubmed/1", ""⟩ (by decide)
  exact ⟨h.1, h2.1 rfl, h2.2.1 rfl, h2.2.2.1 (by simp), h2.2.2.2 rfl⟩

/-- C6: for every record with an author list, the Authors field is the
comma-space join, in author-list order, of last name, one space, fore name
per author (absent name parts defaulting to the empty string). -/
theorem authors_join_spec (pmid title jtitle : String) (authors : List Author)
    (ab : Option AbstractBlock) (mesh : Option (List String)) (row : PublicationRow)
    (hrow : transformRecord ⟨⟨some pmid, ⟨some title, ab, some authors, ⟨some jtitle⟩⟩, mesh⟩⟩ =
      Except.ok row) :
    row.Authors =
      joinWith ", " (authors.map (fun a => a.LastName.getD "" ++ " " ++ a.ForeName.getD "")) := by
  rw [transformRecord_ok_eq] at hrow
  injection hrow with h
  subst h
  rfl

/-- C6 witness: authors (Doe, J) then (Roe, A) yield "Doe J, Roe A". -/
theorem authors_join_spec_witness :
    ({ PMID := "1", Title := "T", Abstract := "", Authors := "Doe J, Roe A", Journal := "J",
       Keywords := "", URL := "https://www.ncbi.nlm.nih.gov/pubmed/1", Affiliations := "" } :
      PublicationRow).Authors = "Doe J, Roe A" := by
  have h := authors_join_spec "1" "T" "J"
    [⟨some "Doe", some "J", []⟩, ⟨some "Roe", some "A", []⟩] none none
    ⟨"1", "T", "", "Doe J, Roe A", "J", "", "https://www.ncbi.nlm.nih.gov/pubmed/1", ""⟩
    (by decide)
  exact h.trans (by decide)

/-- C7: the Affiliations field joins the deduplication of the affiliation
strings collected from the authors' first affiliation entries: the joined
entry list has no duplicates, contains exactly the collected strings, and
each collected string occurs exactly once — so two authors sharing an
identical affiliation contribute one entry. -/
theorem affiliations_dedup_spec (pmid title jtitle : String) (authors : List Author)
    (ab : Option AbstractBlock) (mesh : Option (List String)) (row : PublicationRow)
    (hrow : transformRecord ⟨⟨some pmid, ⟨some title, ab, some authors, ⟨some jtitle⟩⟩, mesh⟩⟩ =
      Except.ok row) :
    row.Affiliations = joinWith "; " (pyDedup (collectAffiliations authors)) ∧
    (pyDedup (collectAffiliations authors)).Nodup ∧
    (∀ s, s ∈ pyDedup (collectAffiliations authors) ↔ s ∈ collectAffiliations authors) ∧
    (∀ s, s ∈ collectAffiliations authors →
      (pyDedup (collectAffiliations authors)).count s = 1) := by
  rw [transformRecord_ok_eq] at hrow
  injection hrow with h
  subst h
  refine ⟨rfl, nodup_pyDedup _, fun s => mem_pyDedup, ?_⟩
  intro s hs
  have hmem : s ∈ pyDedup (collectAffiliations authors) := mem_pyDedup.mpr hs
  have hle := List.nodup_iff_count_le_one.mp (nodup_pyDedup (collectAffiliations authors)) s
  have hne : (pyDedup (collectAffiliations authors)).count s ≠ 0 :=
    fun h0 => (List.count_eq_zero.mp h0) hmem
  omega

/-- C7 witness: two authors sharing the identical affiliation "X" yield an
Affiliations field equal to "X" — a single joined entry. -/
theorem affiliations_dedup_spec_witness :
    ({ PMID := "1", Title := "T", Abstract := "", Authors := "Doe J, Roe A", Journal := "J",
       Keywords := "", URL := "https://www.ncbi.nlm.nih.gov/pubmed/1", Affiliations := "X" } :
      PublicationRow).Affiliations = "X" := by
  have h := affiliations_dedup_spec "1" "T" "J"
    [⟨some "Doe", some "J", ["X"]⟩, ⟨some "Roe", some "A", ["X"]⟩] none none
    ⟨"1", "T", "", "Doe J, Roe A", "J", "", "https://www.ncbi.nlm.nih.gov/pubmed/1", "X"⟩
    (by decide)
  exact h.1.trans (by decide)

/-- A successful dataframe loop run appends exactly the transformed rows of
its record list, in order, after the accumulator's rows. -/
theorem buildLoop_rows : ∀ (records : List RawRecord) (df0 df : DataFrame),
    buildLoop df0 records = Except.ok df →
    ∃ rows, transformAll records = Except.ok rows ∧ df.rows = df0.rows ++ rows := by
  intro records
  induction records with
  | nil =>
    intro df0 df h
    have hdf : df0 = df := by simpa [buildLoop] using h
    subst hdf
    exact ⟨[], rfl, by simp⟩
  | cons r rs ih =>
    intro df0 df h
    cases ht : transformRecord r with
    | error e => simp [buildLoop, ht] at h
    | ok row =>
      rw [buildLoop, ht] at h
      obtain ⟨rows, hta, hrows⟩ := ih _ _ h
      refine ⟨row :: rows, ?_, ?_⟩
      · simp [transformAll, ht, hta]
      · rw [hrows]
        simp [pdConcat, newRowFrame]

/-- A successful transformAll run yields one row per record, positionally:
the row at index i is the transform of the record at index i. -/
theorem transformAll_spec : ∀ (records : List RawRecord) (rows : List PublicationRow),
    transformAll records = Except.ok rows →
    rows.length = records.length ∧
    ∀ (i : Nat) (hi : i < records.length) (hi2 : i < rows.length),
      transformRecord (records.get ⟨i, hi⟩) = Except.ok (rows.get ⟨i, hi2⟩) := by
  intro records
  induction records with
  | nil =>
    intro rows h
    have hr : ([] : List PublicationRow) = rows := by simpa [transformAll] using h
    subst hr
    exact ⟨rfl, fun i hi _ => (Nat.not_lt_zero i hi).elim⟩
  | cons r rs ih =>
    intro rows h
    cases ht : transformRecord r with
    | error e => simp [transformAll, ht] at h
    | ok row =>
      cases hta : transformAll rs with
      | error e => simp [transformAll, ht, hta] at h
      | ok rest =>
        have hrows : row :: rest = rows := by simpa [transformAll, ht, hta] using h
        subst hrows
        obtain ⟨hlen, hidx⟩ := ih rest hta
        refine ⟨by simp [hlen], ?_⟩
        intro i hi hi2
        cases i with
        | zero => simpa [List.get] using ht
        | succ n =>
          have hn : n < rs.length := Nat.lt_of_succ_lt_succ hi
          have hn2 : n < rest.length := Nat.lt_of_succ_lt_succ hi2
          simpa [List.get] using hidx n hn hn2

/-- C8: a successfully built dataset has exactly one row per input record,
and the row at each position is the transform of the record at the same
position — input order is preserved. -/
theorem dataset_preserves_order (records : List RawRecord) (writeOk : Bool) (df : DataFrame)
    (h : create_publication_dataframe records writeOk = Except.ok df) :
    df.rows.length = records.length ∧
    ∀ (i : Nat) (hi : i < records.length) (hi2 : i < df.rows.length),
      transformRecord (records.get ⟨i, hi⟩) = Except.ok (df.rows.get ⟨i, hi2⟩) := by
  have hb : buildLoop emptyDataFrame records = Except.ok df := by
    cases hb : buildLoop emptyDataFrame records with
    | error e => rw [create_publication_dataframe, hb] at h; cases h
    | ok df2 =>
      rw [create_publication_dataframe, hb] at h
      cases writeOk with
      | true => simpa using h
      | false => simp at h
  obtain ⟨rows, hta, hrows⟩ := buildLoop_rows records emptyDataFrame df hb
  have hrows2 : rows = df.rows := by
    rw [hrows]
    simp [emptyDataFrame]
  subst hrows2
  exact transformAll_spec records df.rows hta

/-- C8 witness: a one-record collection builds a one-row frame whose single
row is the transform of the single record. -/
theorem dataset_preserves_order_witness :
    ({ columns := pubColumns,
       rows := [⟨"1", "T", "", "", "J", "", "https://www.ncbi.nlm.nih.gov/pubmed/1", ""⟩] } :
      DataFrame).rows.length = 1 ∧
    transformRecord ⟨⟨some "1", ⟨some "T", none, some [], ⟨some "J"⟩⟩, none⟩⟩ =
      Except.ok ⟨"1", "T", "", "", "J", "", "https://www.ncbi.nlm.nih.gov/pubmed/1", ""⟩ := by
  have h := dataset_preserves_order
    [⟨⟨some "1", ⟨some "T", none, some [], ⟨some "J"⟩⟩, none⟩⟩] true
    ⟨pubColumns, [⟨"1", "T", "", "", "J", "", "https://www.ncbi.nlm.nih.gov/pubmed/1", ""⟩]⟩
    (by decide)
  refine ⟨h.1, ?_⟩
  simpa [List.get] using h.2 0 (by decide) (by decide)

/-- A record missing any of the four structurally required keys makes the
per-record transform raise a KeyError. -/
theorem transform_missing_required {record : RawRecord}
    (h : record.MedlineCitation.PMID = none ∨
         record.MedlineCitation.Article.ArticleTitle = none ∨
         record.MedlineCitation.Article.AuthorList = none ∨
         record.MedlineCitation.Article.Journal.Title = none) :
    exceptOk (transformRecord record) = false := by
  rcases h with h | h | h | h
  · simp [transformRecord, h, exceptOk]
  · cases hp : record.MedlineCitation.PMID <;>
      simp [transformRecord, h, hp, exceptOk]
  · cases hp : record.MedlineCitation.PMID <;>
      cases htl : record.MedlineCitation.Article.ArticleTitle <;>
      simp [transformRecord, h, hp, htl, exceptOk]
  · cases hp : record.MedlineCitation.PMID <;>
      cases htl : record.MedlineCitation.Article.ArticleTitle <;>
      cases hal : record.MedlineCitation.Article.AuthorList <;>
      simp [transformRecord, h, hp, htl, hal, exceptOk]

/-- If any record of the list fails to transform, the whole dataframe loop
raises, whatever the accumulator. -/
theorem buildLoop_error_of_member : ∀ (records : List RawRecord) (df0 : DataFrame)
    (r : RawRecord), r ∈ records → exceptOk (transformRecord r) = false →
    exceptOk (buildLoop df0 records) = false := by
  intro records
  induction records with
  | nil =>
    intro df0 r hr
    exact absurd hr (List.not_mem_nil r)
  | cons x xs ih =>
    intro df0 r hr hfail
    cases ht : transformRecord x with
    | error e => simp [buildLoop, ht, exceptOk]
    | ok row =>
      have hrx : r ≠ x := by
        intro he
        subst he
        rw [ht] at hfail
        simp [exceptOk] at hfail
      have hmem : r ∈ xs := by
        cases List.mem_cons.mp hr with
        | inl hcase => exact absurd hcase hrx
        | inr hcase => exact hcase
      rw [buildLoop, ht]
      exact ih (pdConcat df0 (newRowFrame row)) r hmem hfail

/-- C10: the transform stage treats PMID, ArticleTitle, AuthorList and the
Journal Title as structurally required: a record collection containing a
record in which any one of them is absent makes the dataset build raise and
produce no dataset. -/
theorem required_keys_raise (records : List RawRecord) (writeOk : Bool) (r : RawRecord)
    (hmem : r ∈ records)
    (hmiss : r.MedlineCitation.PMID = none ∨
             r.MedlineCitation.Article.ArticleTitle = none ∨
             r.MedlineCitation.Article.AuthorList = none ∨
             r.MedlineCitation.Article.Journal.Title = none) :
    exceptOk (create_publication_dataframe records writeOk) = false := by
  have hfail := transform_missing_required hmiss
  have hb := buildLoop_error_of_member records emptyDataFrame r hmem hfail
  cases hbl : buildLoop emptyDataFrame records with
  | error e => simp [create_publication_dataframe, hbl, exceptOk]
  | ok df =>
    rw [hbl] at hb
    simp [exceptOk] at hb

/-- C10 witness: a one-record collection whose record lacks the PMID key
makes the dataset build fail. -/
theorem required_keys_raise_witness :
    exceptOk (create_publication_dataframe
      [⟨⟨none, ⟨some "T", none, some [], ⟨some "J"⟩⟩, none⟩⟩] true) = false := by
  exact required_keys_raise [⟨⟨none, ⟨some "T", none, some [], ⟨some "J"⟩⟩, none⟩⟩] true
    ⟨⟨none, ⟨some "T", none, some [], ⟨some "J"⟩⟩, none⟩⟩ (by simp) (Or.inl rfl)

/-- C5 counterexample: for a row whose title "???" sanitizes to the empty
string, the renderer does not fail: the derived filename is the valid
hidden-file name ".md" and the document is silently written. -/
theorem renderer_empty_basename_cex :
    stripSpecial "???" = "" ∧
    create_publication_markdown [⟨"1", "???", "", "", "J", "", "u", ""⟩] =
      Except.ok [(".md", markdownBody ⟨"1", "???", "", "", "J", "", "u", ""⟩)] := by
  decide

/-- C5 (amended): for every row whose title sanitizes to the empty string,
the derived filename is ".md" — non-empty, hence a writable hidden filename
on POSIX — and the renderer silently writes that document with an empty
base name instead of failing. -/
theorem renderer_empty_title_spec (row : PublicationRow)
    (h : stripSpecial row.Title = "") :
    mdFilename row.Title = ".md" ∧
    mdFilename row.Title ≠ "" ∧
    create_publication_markdown [row] = Except.ok [(".md", markdownBody row)] := by
  have hf : mdFilename row.Title = ".md" := by
    rw [mdFilename, h]
    decide
  refine ⟨hf, by rw [hf]; decide, ?_⟩
  show renderLoop [row] = _
  rw [renderLoop, hf]
  simp [writeDocument, renderLoop, hf]

/-- C5 witness: the all-punctuation title "!!!" sanitizes to "", yields the
filename ".md", and its document is written. -/
theorem renderer_empty_title_witness :
    mdFilename "!!!" = ".md" ∧
    mdFilename "!!!" ≠ "" ∧
    create_publication_markdown [⟨"2", "!!!", "", "", "J", "", "u", ""⟩] =
      Except.ok [(".md", markdownBody ⟨"2", "!!!", "", "", "J", "", "u", ""⟩)] := by
  exact renderer_empty_title_spec ⟨"2", "!!!", "", "", "J", "", "u", ""⟩ (by decide)
